import Mathlib

/-!
Verification development for the Todo API bootstrap module (`main.py`).

The module wires a FastAPI application: lifecycle hooks around database
initialization and teardown, a CORS middleware configured from settings,
two liveness endpoints (`GET /` and `GET /health`), and registration of
two delegated routers under fixed path prefixes.

We give a shallow embedding of the module: handlers become pure functions
from settings / clock / world state to responses, the lifecycle hooks
become trace-producing functions over the outcomes of the fallible
database operations, and module-load router registration becomes an
`Except`-valued function of the import outcome.
-/

namespace TodoApi

/-! ### Decimal rendering of naturals (Python `str`/zero-padded formatting) -/

/-- The decimal digits of `n`, most significant first, as characters.
Mirrors Python's decimal rendering of a non-negative integer. -/
def decimalDigits (n : Nat) : List Char :=
  if _h : n < 10 then [Nat.digitChar n]
  else decimalDigits (n / 10) ++ [Nat.digitChar (n % 10)]
  decreasing_by
    exact Nat.div_lt_self (by omega) (by omega)

/-- Zero-pad the decimal rendering of `n` to width `w`
(Python's `%0wd` formatting used by `datetime.isoformat`). -/
def padDigits (w n : Nat) : List Char :=
  List.replicate (w - (decimalDigits n).length) '0' ++ decimalDigits n

theorem decimalDigits_ne_nil (n : Nat) : decimalDigits n ≠ [] := by
  rw [decimalDigits]
  split <;> simp

theorem digitChar_isDigit (m : Nat) (h : m < 10) : (Nat.digitChar m).isDigit = true := by
  interval_cases m <;> decide

theorem decimalDigits_all_isDigit (n : Nat) :
    ∀ c ∈ decimalDigits n, c.isDigit = true := by
  induction n using Nat.strong_induction_on with
  | _ n ih =>
    rw [decimalDigits]
    split
    · intro c hc
      simp only [List.mem_singleton] at hc
      subst hc
      exact digitChar_isDigit n (by omega)
    · intro c hc
      rcases List.mem_append.mp hc with h1 | h2
      · exact ih (n / 10) (Nat.div_lt_self (by omega) (by omega)) c h1
      · simp only [List.mem_singleton] at h2
        subst h2
        exact digitChar_isDigit _ (Nat.mod_lt _ (by omega))

theorem decimalDigits_length_le (w n : Nat) (hw : 1 ≤ w) (hn : n < 10 ^ w) :
    (decimalDigits n).length ≤ w := by
  induction w generalizing n with
  | zero => omega
  | succ w ih =>
    rw [decimalDigits]
    split
    · simp
    · rename_i hbig
      have hw1 : 1 ≤ w := by
        by_contra h
        have : w = 0 := by omega
        subst this
        simp [pow_succ] at hn
        omega
      have : n / 10 < 10 ^ w := by
        apply Nat.div_lt_of_lt_mul
        calc n < 10 ^ (w + 1) := hn
        _ = 10 * 10 ^ w := by ring
      have hlen := ih hw1 (n := n / 10) this
      simp only [List.length_append, List.length_singleton]
      omega

theorem padDigits_all_isDigit (w n : Nat) :
    ∀ c ∈ padDigits w n, c.isDigit = true := by
  intro c hc
  rcases List.mem_append.mp hc with h1 | h2
  · have := List.eq_of_mem_replicate h1
    subst this
    decide
  · exact decimalDigits_all_isDigit n c h2

theorem padDigits_length (w n : Nat) (hw : 1 ≤ w) (hn : n < 10 ^ w) :
    (padDigits w n).length = w := by
  have h1 := decimalDigits_length_le w n hw hn
  simp only [padDigits, List.length_append, List.length_replicate]
  omega

/-! ### Python naive datetimes and `isoformat` -/

/-- A naive Python `datetime` value, as produced by `datetime.utcnow()`:
it carries no timezone information (`tzinfo is None`). -/
structure PyDateTime where
  year : Nat
  month : Nat
  day : Nat
  hour : Nat
  minute : Nat
  second : Nat
  microsecond : Nat
deriving DecidableEq, Repr

/-- The invariants Python's `datetime` constructor enforces on its fields. -/
def PyDateTime.Valid (d : PyDateTime) : Prop :=
  1 ≤ d.year ∧ d.year ≤ 9999 ∧
  1 ≤ d.month ∧ d.month ≤ 12 ∧
  1 ≤ d.day ∧ d.day ≤ 31 ∧
  d.hour ≤ 23 ∧ d.minute ≤ 59 ∧ d.second ≤ 59 ∧
  d.microsecond < 1000000

instance (d : PyDateTime) : Decidable d.Valid := by
  unfold PyDateTime.Valid
  infer_instance

/-- The date part `YYYY-MM-DD` of `datetime.isoformat()`. -/
def PyDateTime.isoDateChars (d : PyDateTime) : List Char :=
  padDigits 4 d.year ++ '-' :: (padDigits 2 d.month ++ '-' :: padDigits 2 d.day)

/-- The time part `HH:MM:SS[.ffffff]` of `datetime.isoformat()`; the
fractional part is emitted only when `microsecond` is nonzero. -/
def PyDateTime.isoTimeChars (d : PyDateTime) : List Char :=
  padDigits 2 d.hour ++ ':' :: (padDigits 2 d.minute ++ ':' :: padDigits 2 d.second) ++
  (if d.microsecond = 0 then [] else '.' :: padDigits 6 d.microsecond)

/-- `datetime.isoformat()` on a naive datetime: date, `T` separator, time,
and no timezone designator of any kind. -/
def PyDateTime.isoformat (d : PyDateTime) : String :=
  String.mk (d.isoDateChars ++ 'T' :: d.isoTimeChars)

/-! ### A syntactic ISO-8601 checker -/

/-- Consume exactly `k` decimal digit characters; return the rest. -/
def eatDigits : Nat → List Char → Option (List Char)
  | 0, cs => some cs
  | _ + 1, [] => none
  | k + 1, c :: cs => if c.isDigit then eatDigits k cs else none

/-- Consume one expected character; return the rest. -/
def eatChar (c : Char) : List Char → Option (List Char)
  | [] => none
  | c' :: cs => if c' = c then some cs else none

/-- Accept an optional fractional-second part: empty, or a dot followed by
one or more digits. -/
def checkFracPart : List Char → Bool
  | [] => true
  | '.' :: cs => !cs.isEmpty && cs.all (·.isDigit)
  | _ => false

/-- Syntactic ISO-8601 combined date-time check:
`YYYY-MM-DDTHH:MM:SS` with an optional fractional-second part. -/
def isValidISO8601 (s : String) : Bool :=
  match eatDigits 4 s.toList >>= eatChar '-' >>= eatDigits 2 >>= eatChar '-' >>=
        eatDigits 2 >>= eatChar 'T' >>= eatDigits 2 >>= eatChar ':' >>=
        eatDigits 2 >>= eatChar ':' >>= eatDigits 2 with
  | some rest => checkFracPart rest
  | none => false

theorem eatDigits_append (l rest : List Char) (h : ∀ c ∈ l, c.isDigit = true) :
    eatDigits l.length (l ++ rest) = some rest := by
  induction l with
  | nil => rfl
  | cons c cs ih =>
    simp only [List.length_cons, List.cons_append, eatDigits]
    rw [h c (List.mem_cons_self c cs)]
    simp only [if_true]
    exact ih (fun c' hc' => h c' (List.mem_cons_of_mem c hc'))

theorem eatChar_cons (c : Char) (rest : List Char) :
    eatChar c (c :: rest) = some rest := by
  simp [eatChar]

theorem eatDigits_pad (w n : Nat) (rest : List Char) (hw : 1 ≤ w) (hn : n < 10 ^ w) :
    eatDigits w (padDigits w n ++ rest) = some rest := by
  have h := eatDigits_append (padDigits w n) rest (padDigits_all_isDigit w n)
  rwa [padDigits_length w n hw hn] at h

/-- `datetime.isoformat()` output is syntactically valid ISO-8601 for every
datetime satisfying Python's field invariants. -/
theorem isoformat_valid (d : PyDateTime) (h : d.Valid) :
    isValidISO8601 d.isoformat = true := by
  obtain ⟨h1, h2, h3, h4, h5, h6, h7, h8, h9, h10⟩ := h
  have hy : d.year < 10 ^ 4 := by omega
  have hm : d.month < 10 ^ 2 := by omega
  have hd : d.day < 10 ^ 2 := by omega
  have hh : d.hour < 10 ^ 2 := by omega
  have hmin : d.minute < 10 ^ 2 := by omega
  have hs : d.second < 10 ^ 2 := by omega
  have hμ : d.microsecond < 10 ^ 6 := by omega
  simp only [isValidISO8601, PyDateTime.isoformat, PyDateTime.isoDateChars,
    PyDateTime.isoTimeChars, String.toList]
  simp only [List.append_assoc, List.cons_append]
  rw [eatDigits_pad 4 d.year _ (by omega) hy, Option.bind_eq_bind, Option.some_bind,
    eatChar_cons, Option.some_bind,
    eatDigits_pad 2 d.month _ (by omega) hm, Option.some_bind,
    eatChar_cons, Option.some_bind,
    eatDigits_pad 2 d.day _ (by omega) hd, Option.some_bind,
    eatChar_cons, Option.some_bind,
    eatDigits_pad 2 d.hour _ (by omega) hh, Option.some_bind,
    eatChar_cons, Option.some_bind,
    eatDigits_pad 2 d.minute _ (by omega) hmin, Option.some_bind,
    eatChar_cons, Option.some_bind,
    eatDigits_pad 2 d.second _ (by omega) hs]
  by_cases hz : d.microsecond = 0
  · simp [hz, checkFracPart]
  · simp only [hz, if_false]
    have hlen : (padDigits 6 d.microsecond).length = 6 :=
      padDigits_length 6 d.microsecond (by omega) hμ
    have hred : checkFracPart ('.' :: padDigits 6 d.microsecond) =
        (!(padDigits 6 d.microsecond).isEmpty &&
          (padDigits 6 d.microsecond).all (·.isDigit)) := rfl
    rw [hred, Bool.and_eq_true, Bool.not_eq_true']
    refine ⟨?_, ?_⟩
    · rw [List.isEmpty_eq_false]
      intro hnil
      rw [hnil] at hlen
      simp at hlen
    · rw [List.all_eq_true]
      intro c hc
      exact padDigits_all_isDigit 6 d.microsecond c hc

/-! ### Configuration (`app.config.settings`, read-only from this module) -/

/-- The configuration record consumed by `main.py`: application name and
version, debug flag, production flag, and the allowed CORS origin list. -/
structure Settings where
  APP_NAME : String
  APP_VERSION : String
  DEBUG : Bool
  productionFlag : Bool
  corsOrigins : List String
deriving DecidableEq, Repr

/-- `settings.get_cors_origins_list()`: the configured origin list. -/
def Settings.get_cors_origins_list (s : Settings) : List String := s.corsOrigins

/-- `settings.is_production()`. -/
def Settings.is_production (s : Settings) : Bool := s.productionFlag

/-! ### Response bodies -/

/-- The JSON values occurring in this module's response bodies:
strings and lists of strings. -/
inductive JsonValue where
  | str : String → JsonValue
  | strList : List String → JsonValue
deriving DecidableEq, Repr

/-- Look a key up in a JSON-object body (first match, as in a Python dict
with distinct keys). -/
def lookupField (body : List (String × JsonValue)) (k : String) : Option JsonValue :=
  (body.find? (fun p => p.1 == k)).map (fun p => p.2)

/-- An HTTP response: status code, headers, JSON-object body. -/
structure HttpResponse where
  statusCode : Nat
  headers : List (String × String)
  body : List (String × JsonValue)
deriving DecidableEq, Repr

/-- An inbound HTTP request, as far as this module observes it. -/
structure HttpRequest where
  method : String
  path : String
  originHeader : Option String
deriving DecidableEq, Repr

/-! ### Process state visible to the handlers -/

/-- The state of the database collaborator as of this process. -/
inductive DbState where
  | fresh : DbState
  | ready : DbState
  | broken : String → DbState
deriving DecidableEq, Repr

/-- The mutable world the handlers run in: database state and the log. -/
structure AppWorld where
  db : DbState
  log : List String
deriving DecidableEq, Repr

/-! ### The two liveness handlers (`root`, `health_check`) -/

/-- The dict returned by the `root` handler (`GET /`):
status, app name, version, timestamp, and the live CORS origin list
re-read from settings on every request. -/
def root (s : Settings) (now : PyDateTime) : List (String × JsonValue) :=
  [("status", .str "healthy"),
   ("app_name", .str s.APP_NAME),
   ("version", .str s.APP_VERSION),
   ("timestamp", .str now.isoformat),
   ("cors_origins", .strList s.get_cors_origins_list)]

/-- The dict returned by the `health_check` handler (`GET /health`). -/
def health_check (now : PyDateTime) : List (String × JsonValue) :=
  [("status", .str "healthy"),
   ("timestamp", .str now.isoformat)]

/-- Serving `GET /`: the handler body is a `logger.info` call followed by
returning the dict; FastAPI wraps the dict in a 200 response. -/
def rootEndpoint (s : Settings) (now : PyDateTime) (w : AppWorld) :
    HttpResponse × AppWorld :=
  (⟨200, [], root s now⟩, { w with log := w.log ++ ["Root endpoint accessed"] })

/-- Serving `GET /health`: the handler body is just the returned dict;
FastAPI wraps it in a 200 response. -/
def healthEndpoint (now : PyDateTime) (w : AppWorld) : HttpResponse × AppWorld :=
  (⟨200, [], health_check now⟩, w)

/-! ### Lifespan hooks (`lifespan` in `main.py`) -/

/-- The outcome of one of the awaited database operations
(`create_db_and_tables`, `close_db`): normal return or a raised exception
carrying a message. -/
inductive DbOpResult where
  | ok : DbOpResult
  | exn : String → DbOpResult
deriving DecidableEq, Repr

/-- Observable events of the process lifecycle. -/
inductive LifeEvent where
  | createDbAndTables : LifeEvent
  | closeDb : LifeEvent
  | serveRequests : LifeEvent
  | logInfo : String → LifeEvent
  | logError : String → LifeEvent
  | logWarning : String → LifeEvent
deriving DecidableEq, Repr

/-- The `lifespan` context manager, as the event trace of one process
lifetime. Startup wraps `create_db_and_tables` in try/except (both arms
fall through to the `yield`, i.e. to serving requests); shutdown wraps
`close_db` in try/except (both arms fall through to process exit). The
function is total: neither hook re-raises. -/
def lifespan (initResult closeResult : DbOpResult) : List LifeEvent :=
  ([.logInfo "Starting up: Creating database tables...", .createDbAndTables] ++
    match initResult with
    | .ok => [.logInfo "Database tables created successfully"]
    | .exn e =>
        [.logError ("Error during database initialization: " ++ e),
         .logWarning "Continuing without database initialization..."]) ++
  [.serveRequests] ++
  ([.logInfo "Shutting down: Closing database connections...", .closeDb] ++
    match closeResult with
    | .ok => [.logInfo "Database connections closed"]
    | .exn e => [.logError ("Error during database shutdown: " ++ e)])

/-! ### Router registration (module-load `try`/`except`/`raise`) -/

/-- The two delegated route modules. -/
inductive RouterModule where
  | auth : RouterModule
  | tasks : RouterModule
deriving DecidableEq, Repr

/-- One `app.include_router(...)` registration: router, path under which it
is mounted, tags. -/
structure RouterRegistration where
  router : RouterModule
  mountPath : String
  tags : List String
deriving DecidableEq, Repr

/-- The outcome of `from app.routes import auth, tasks` at module load. -/
inductive ImportResult where
  | ok : ImportResult
  | exn : String → ImportResult
deriving DecidableEq, Repr

/-- The module-load router block: on successful import both routers are
registered under their fixed paths and tags; on any exception the error
is logged and re-raised (`raise`), so module load — and hence process
startup — fails. -/
def registerRouters (r : ImportResult) : Except String (List RouterRegistration) :=
  match r with
  | .ok => .ok [⟨.auth, "/api/auth", ["Authentication"]⟩,
                ⟨.tasks, "/api/tasks", ["Tasks"]⟩]
  | .exn e => .error e

/-! ### CORS middleware -/

/-- The keyword arguments `main.py` passes to `app.add_middleware`. -/
structure CORSMiddlewareConfig where
  allow_origins : List String
  allow_credentials : Bool
  allow_methods : List String
  allow_headers : List String
deriving DecidableEq, Repr

/-- The CORS configuration installed at application construction:
`cors_origins` is read from settings once, here. -/
def corsMiddlewareConfig (s : Settings) : CORSMiddlewareConfig :=
  { allow_origins := s.get_cors_origins_list
    allow_credentials := true
    allow_methods := ["*"]
    allow_headers := ["*"] }

/-- Modelled from the spec: the `CORSMiddleware` implementation lives in
the web framework, not in this repository's source; `main.py` only
configures it. Per the spec, every inbound request is intercepted; when
the Origin header matches an allowed entry, `Access-Control-Allow-*`
headers are added (all methods and headers permitted — rendered here as
the configured `*` lists — and credentials allowed), and preflight
OPTIONS requests are short-circuited with a success response without
reaching the inner application; when the origin does not match, the
middleware adds no `Access-Control-Allow-Origin` header. -/
def corsProcess (cfg : CORSMiddlewareConfig) (req : HttpRequest)
    (inner : HttpRequest → HttpResponse) : HttpResponse :=
  match req.originHeader with
  | none => inner req
  | some origin =>
    if cfg.allow_origins.contains origin then
      if req.method == "OPTIONS" then
        ⟨200,
         [("Access-Control-Allow-Origin", origin),
          ("Access-Control-Allow-Methods", String.intercalate ", " cfg.allow_methods),
          ("Access-Control-Allow-Headers", String.intercalate ", " cfg.allow_headers)] ++
         (if cfg.allow_credentials then [("Access-Control-Allow-Credentials", "true")] else []),
         []⟩
      else
        let resp := inner req
        { resp with
            headers := resp.headers ++
              [("Access-Control-Allow-Origin", origin)] ++
              (if cfg.allow_credentials
               then [("Access-Control-Allow-Credentials", "true")] else []) }
    else inner req

/-! ### Application construction (module load of `main.py`) -/

/-- The constructed application: FastAPI metadata, the CORS configuration
captured at construction, and the mounted routers. -/
structure TodoApp where
  title : String
  version : String
  corsConfig : CORSMiddlewareConfig
  routes : List RouterRegistration
deriving DecidableEq, Repr

/-- Module load of `main.py`: construct the app from the settings current
at load time (capturing the CORS origin list once), then run the router
block; an import failure propagates and no app is produced. -/
def buildApp (s : Settings) (importR : ImportResult) : Except String TodoApp :=
  match registerRouters importR with
  | .error e => .error e
  | .ok regs => .ok ⟨s.APP_NAME, s.APP_VERSION, corsMiddlewareConfig s, regs⟩

/-! ### Character classes of `isoformat` output -/

theorem isoDateChars_classes (d : PyDateTime) :
    ∀ c ∈ d.isoDateChars, c.isDigit = true ∨ c = '-' := by
  intro c hc
  simp only [PyDateTime.isoDateChars, List.mem_append, List.mem_cons] at hc
  rcases hc with h | h | h | h | h
  · exact Or.inl (padDigits_all_isDigit 4 d.year c h)
  · exact Or.inr h
  · exact Or.inl (padDigits_all_isDigit 2 d.month c h)
  · exact Or.inr h
  · exact Or.inl (padDigits_all_isDigit 2 d.day c h)

theorem isoTimeChars_classes (d : PyDateTime) :
    ∀ c ∈ d.isoTimeChars, c.isDigit = true ∨ c = ':' ∨ c = '.' := by
  intro c hc
  simp only [PyDateTime.isoTimeChars, List.mem_append, List.mem_cons] at hc
  rcases hc with (h | h | h | h | h) | h
  · exact Or.inl (padDigits_all_isDigit 2 d.hour c h)
  · exact Or.inr (Or.inl h)
  · exact Or.inl (padDigits_all_isDigit 2 d.minute c h)
  · exact Or.inr (Or.inl h)
  · exact Or.inl (padDigits_all_isDigit 2 d.second c h)
  · by_cases hz : d.microsecond = 0
    · rw [hz] at h
      simp at h
    · rw [if_neg hz] at h
      rcases List.mem_cons.mp h with h' | h'
      · exact Or.inr (Or.inr h')
      · exact Or.inl (padDigits_all_isDigit 6 d.microsecond c h')

/-! ### Claim theorems -/

/-- C1: in every process state — the world `w` is arbitrary, including
worlds whose database is broken — `GET /health` returns HTTP 200 with
`status = "healthy"` and a syntactically valid ISO-8601 `timestamp`; the
response is identical across all worlds (`w` vs `w'`), so the handler
never consults the database. -/
theorem health_endpoint_contract (now : PyDateTime) (w w' : AppWorld)
    (h : now.Valid) :
    (healthEndpoint now w).1.statusCode = 200 ∧
    lookupField (healthEndpoint now w).1.body "status" = some (.str "healthy") ∧
    (∃ ts, lookupField (healthEndpoint now w).1.body "timestamp" = some (.str ts) ∧
      isValidISO8601 ts = true) ∧
    (healthEndpoint now w).1 = (healthEndpoint now w').1 :=
  ⟨rfl, rfl, ⟨now.isoformat, rfl, isoformat_valid now h⟩, rfl⟩

/-- Witness for C1 at a concrete datetime and two distinct worlds. -/
theorem health_endpoint_contract_witness :
    (⟨2025, 1, 1, 0, 0, 0, 0⟩ : PyDateTime).Valid ∧
    ((healthEndpoint ⟨2025, 1, 1, 0, 0, 0, 0⟩ ⟨.broken "down", []⟩).1.statusCode = 200 ∧
     lookupField (healthEndpoint ⟨2025, 1, 1, 0, 0, 0, 0⟩ ⟨.broken "down", []⟩).1.body "status" =
       some (.str "healthy") ∧
     (∃ ts, lookupField (healthEndpoint ⟨2025, 1, 1, 0, 0, 0, 0⟩
         ⟨.broken "down", []⟩).1.body "timestamp" = some (.str ts) ∧
       isValidISO8601 ts = true) ∧
     (healthEndpoint ⟨2025, 1, 1, 0, 0, 0, 0⟩ ⟨.broken "down", []⟩).1 =
       (healthEndpoint ⟨2025, 1, 1, 0, 0, 0, 0⟩ ⟨.ready, ["x"]⟩).1) :=
  ⟨by decide,
   health_endpoint_contract ⟨2025, 1, 1, 0, 0, 0, 0⟩ ⟨.broken "down", []⟩
     ⟨.ready, ["x"]⟩ (by decide)⟩

/-- C2: for every configuration, `GET /` returns 200 and a body whose
`app_name`, `version` and `cors_origins` fields equal the configured
values, whose `status` field is the fixed health string, and whose
`timestamp` field is the clock reading rendered in valid ISO-8601. -/
theorem root_endpoint_contract (s : Settings) (now : PyDateTime) (w : AppWorld)
    (h : now.Valid) :
    (rootEndpoint s now w).1.statusCode = 200 ∧
    lookupField (rootEndpoint s now w).1.body "app_name" = some (.str s.APP_NAME) ∧
    lookupField (rootEndpoint s now w).1.body "version" = some (.str s.APP_VERSION) ∧
    lookupField (rootEndpoint s now w).1.body "cors_origins" =
      some (.strList s.get_cors_origins_list) ∧
    lookupField (rootEndpoint s now w).1.body "status" = some (.str "healthy") ∧
    lookupField (rootEndpoint s now w).1.body "timestamp" = some (.str now.isoformat) ∧
    isValidISO8601 now.isoformat = true :=
  ⟨rfl, rfl, rfl, rfl, rfl, rfl, isoformat_valid now h⟩

/-- Witness for C2 at a concrete configuration, datetime and world. -/
theorem root_endpoint_contract_witness :
    (⟨2025, 6, 30, 23, 59, 59, 123456⟩ : PyDateTime).Valid ∧
    (rootEndpoint ⟨"Todo API", "1.0.0", false, false, ["http://localhost:3000"]⟩
       ⟨2025, 6, 30, 23, 59, 59, 123456⟩ ⟨.ready, []⟩).1.statusCode = 200 ∧
    lookupField (rootEndpoint ⟨"Todo API", "1.0.0", false, false, ["http://localhost:3000"]⟩
       ⟨2025, 6, 30, 23, 59, 59, 123456⟩ ⟨.ready, []⟩).1.body "app_name" =
      some (.str "Todo API") := by
  refine ⟨by decide, ?_, ?_⟩
  · exact (root_endpoint_contract ⟨"Todo API", "1.0.0", false, false, ["http://localhost:3000"]⟩
      ⟨2025, 6, 30, 23, 59, 59, 123456⟩ ⟨.ready, []⟩ (by decide)).1
  · exact (root_endpoint_contract ⟨"Todo API", "1.0.0", false, false, ["http://localhost:3000"]⟩
      ⟨2025, 6, 30, 23, 59, 59, 123456⟩ ⟨.ready, []⟩ (by decide)).2.1

/-- C3: when `create_db_and_tables` raises, the lifespan startup arm
catches the exception (logging the warning) and still reaches the
`yield`, so the process serves requests, and `GET /health` — even on a
world whose database is broken by that very error — responds 200 with
the healthy status. -/
theorem db_init_failure_degrades (e : String) (closeR : DbOpResult)
    (now : PyDateTime) (w : AppWorld) :
    LifeEvent.serveRequests ∈ lifespan (.exn e) closeR ∧
    LifeEvent.logWarning "Continuing without database initialization..." ∈
      lifespan (.exn e) closeR ∧
    (healthEndpoint now { w with db := .broken e }).1.statusCode = 200 ∧
    lookupField (healthEndpoint now { w with db := .broken e }).1.body "status" =
      some (.str "healthy") := by
  refine ⟨?_, ?_, rfl, rfl⟩ <;> simp [lifespan]

/-- C7: the module-load router block, when the import succeeds, registers
exactly the auth router under `/api/auth` (tagged "Authentication") and
the tasks router under `/api/tasks` (tagged "Tasks"), and nothing else. -/
theorem routers_mounted_exactly :
    registerRouters .ok =
      .ok [⟨.auth, "/api/auth", ["Authentication"]⟩,
           ⟨.tasks, "/api/tasks", ["Tasks"]⟩] := rfl

/-- C9: both handlers' `timestamp` field is `datetime.utcnow().isoformat()`
of the naive clock reading; the rendered string splits into a date part, a
`T`, and a time part, and carries no timezone designator: no `Z` anywhere,
no `+` anywhere, and no `-` in the time part (so no numeric UTC offset). -/
theorem timestamp_no_timezone_designator (s : Settings) (now : PyDateTime) :
    lookupField (root s now) "timestamp" = some (.str now.isoformat) ∧
    lookupField (health_check now) "timestamp" = some (.str now.isoformat) ∧
    now.isoformat.toList = now.isoDateChars ++ 'T' :: now.isoTimeChars ∧
    'Z' ∉ now.isoformat.toList ∧
    '+' ∉ now.isoformat.toList ∧
    '-' ∉ now.isoTimeChars := by
  have hfull : ∀ c ∈ now.isoformat.toList,
      c.isDigit = true ∨ c = '-' ∨ c = 'T' ∨ c = ':' ∨ c = '.' := by
    intro c hc
    have hc' : c ∈ now.isoDateChars ++ 'T' :: now.isoTimeChars := hc
    rcases List.mem_append.mp hc' with h | h
    · rcases isoDateChars_classes now c h with h' | h'
      · exact Or.inl h'
      · exact Or.inr (Or.inl h')
    · rcases List.mem_cons.mp h with h' | h'
      · exact Or.inr (Or.inr (Or.inl h'))
      · rcases isoTimeChars_classes now c h' with h'' | h'' | h''
        · exact Or.inl h''
        · exact Or.inr (Or.inr (Or.inr (Or.inl h'')))
        · exact Or.inr (Or.inr (Or.inr (Or.inr h'')))
  refine ⟨rfl, rfl, rfl, ?_, ?_, ?_⟩
  · intro hmem
    rcases hfull 'Z' hmem with h | h | h | h | h <;> simp_all
  · intro hmem
    rcases hfull '+' hmem with h | h | h | h | h <;> simp_all
  · intro hmem
    rcases isoTimeChars_classes now '-' hmem with h | h | h <;> simp_all

/-- C4: if importing/registering the delegated routers raises at module
load, the error is re-raised and module load — hence process startup —
fails (`buildApp` produces no app); and whenever registration does
succeed, both the auth and the tasks router are mounted, so the app never
serves with only part of the delegated surface. -/
theorem router_failure_aborts_startup (s : Settings) (e : String)
    (r : ImportResult) (regs : List RouterRegistration)
    (h : registerRouters r = .ok regs) :
    registerRouters (.exn e) = .error e ∧
    buildApp s (.exn e) = .error e ∧
    (⟨.auth, "/api/auth", ["Authentication"]⟩ : RouterRegistration) ∈ regs ∧
    (⟨.tasks, "/api/tasks", ["Tasks"]⟩ : RouterRegistration) ∈ regs := by
  refine ⟨rfl, rfl, ?_, ?_⟩ <;>
  · cases r with
    | ok =>
        simp only [registerRouters, Except.ok.injEq] at h
        subst h
        simp
    | exn e' => simp [registerRouters] at h

/-- Witness for C4 at the successful import outcome. -/
theorem router_failure_aborts_startup_witness :
    registerRouters (.ok) =
      .ok [⟨.auth, "/api/auth", ["Authentication"]⟩,
           ⟨.tasks, "/api/tasks", ["Tasks"]⟩] ∧
    (registerRouters (.exn "No module named app.routes") =
       .error "No module named app.routes" ∧
     buildApp ⟨"Todo API", "1.0.0", false, false, []⟩
         (.exn "No module named app.routes") =
       .error "No module named app.routes" ∧
     (⟨.auth, "/api/auth", ["Authentication"]⟩ : RouterRegistration) ∈
       [(⟨.auth, "/api/auth", ["Authentication"]⟩ : RouterRegistration),
        ⟨.tasks, "/api/tasks", ["Tasks"]⟩] ∧
     (⟨.tasks, "/api/tasks", ["Tasks"]⟩ : RouterRegistration) ∈
       [(⟨.auth, "/api/auth", ["Authentication"]⟩ : RouterRegistration),
        ⟨.tasks, "/api/tasks", ["Tasks"]⟩]) :=
  ⟨rfl,
   router_failure_aborts_startup ⟨"Todo API", "1.0.0", false, false, []⟩
     "No module named app.routes" .ok
     [⟨.auth, "/api/auth", ["Authentication"]⟩, ⟨.tasks, "/api/tasks", ["Tasks"]⟩] rfl⟩

/-- C5: in the single lifespan trace of a process lifetime, `close_db` is
invoked exactly once, and the shutdown arm catches a teardown exception —
the trace ends with the logged error rather than a propagated exception —
while a successful teardown ends with the success log; either way the
hook runs to completion and process exit is not blocked. -/
theorem shutdown_close_once_never_blocks (initR : DbOpResult) (closeR : DbOpResult)
    (e : String) :
    (lifespan initR closeR).count .closeDb = 1 ∧
    (lifespan initR (.exn e)).getLast? =
      some (.logError ("Error during database shutdown: " ++ e)) ∧
    (lifespan initR .ok).getLast? = some (.logInfo "Database connections closed") := by
  refine ⟨?_, ?_, ?_⟩ <;>
    cases initR <;> cases closeR <;>
      simp [lifespan, List.count_cons, List.count_append, beq_iff_eq]

/-- C6: the single CORS policy installed from settings: a request bearing
an allowed Origin gets `Access-Control-Allow-Origin` for that origin and
the credentials header; a preflight OPTIONS from an allowed origin is
short-circuited (the response is independent of the inner application)
with status 200 and headers permitting all methods and headers; and for a
disallowed origin the middleware adds no `Access-Control-Allow-Origin`
header. -/
theorem cors_global_policy (s : Settings) (req : HttpRequest) (origin : String)
    (inner inner' : HttpRequest → HttpResponse)
    (hor : req.originHeader = some origin) :
    (origin ∈ (corsMiddlewareConfig s).allow_origins →
      (req.method = "OPTIONS" →
        corsProcess (corsMiddlewareConfig s) req inner =
          corsProcess (corsMiddlewareConfig s) req inner' ∧
        (corsProcess (corsMiddlewareConfig s) req inner).statusCode = 200 ∧
        ("Access-Control-Allow-Origin", origin) ∈
          (corsProcess (corsMiddlewareConfig s) req inner).headers ∧
        ("Access-Control-Allow-Methods", "*") ∈
          (corsProcess (corsMiddlewareConfig s) req inner).headers ∧
        ("Access-Control-Allow-Headers", "*") ∈
          (corsProcess (corsMiddlewareConfig s) req inner).headers ∧
        ("Access-Control-Allow-Credentials", "true") ∈
          (corsProcess (corsMiddlewareConfig s) req inner).headers) ∧
      (req.method ≠ "OPTIONS" →
        ("Access-Control-Allow-Origin", origin) ∈
          (corsProcess (corsMiddlewareConfig s) req inner).headers ∧
        ("Access-Control-Allow-Credentials", "true") ∈
          (corsProcess (corsMiddlewareConfig s) req inner).headers)) ∧
    (origin ∉ (corsMiddlewareConfig s).allow_origins →
      (∀ v, ("Access-Control-Allow-Origin", v) ∉ (inner req).headers) →
      ∀ v, ("Access-Control-Allow-Origin", v) ∉
        (corsProcess (corsMiddlewareConfig s) req inner).headers) := by
  constructor
  · intro hmem
    have hc : (corsMiddlewareConfig s).allow_origins.contains origin = true := by
      simpa using hmem
    constructor
    · intro hopt
      have hm : (req.method == "OPTIONS") = true := by simpa using hopt
      have hi : String.intercalate ", " ["*"] = "*" := by decide
      simp only [corsProcess, hor, hc, if_true, hm]
      simp [corsMiddlewareConfig, hi]
    · intro hopt
      have hm : (req.method == "OPTIONS") = false := by
        simpa using hopt
      simp only [corsProcess, hor, hc, if_true, hm, Bool.false_eq_true, if_false]
      refine ⟨?_, ?_⟩ <;> simp [corsMiddlewareConfig]
  · intro hmem hinner v
    have hc : (corsMiddlewareConfig s).allow_origins.contains origin = false := by
      simpa using hmem
    simp only [corsProcess, hor, hc, Bool.false_eq_true, if_false]
    exact hinner v

/-- Witness for C6 at a concrete configuration and preflight request. -/
theorem cors_global_policy_witness :
    ((⟨"OPTIONS", "/api/tasks", some "http://localhost:3000"⟩ :
        HttpRequest).originHeader = some "http://localhost:3000") ∧
    ("http://localhost:3000" ∈
      (corsMiddlewareConfig
        ⟨"Todo API", "1.0.0", false, false, ["http://localhost:3000"]⟩).allow_origins →
      ("OPTIONS" = "OPTIONS" →
        ("Access-Control-Allow-Origin", "http://localhost:3000") ∈
          (corsProcess
            (corsMiddlewareConfig
              ⟨"Todo API", "1.0.0", false, false, ["http://localhost:3000"]⟩)
            ⟨"OPTIONS", "/api/tasks", some "http://localhost:3000"⟩
            (fun _ => ⟨200, [], []⟩)).headers)) := by
  refine ⟨rfl, fun hmem hopt => ?_⟩
  have h := (cors_global_policy
    ⟨"Todo API", "1.0.0", false, false, ["http://localhost:3000"]⟩
    ⟨"OPTIONS", "/api/tasks", some "http://localhost:3000"⟩
    "http://localhost:3000" (fun _ => ⟨200, [], []⟩) (fun _ => ⟨404, [], []⟩)
    rfl).1 hmem
  exact (h.1 rfl).2.2.1

/-- C8 counterexample: the claim that the handlers have no observable
effect beyond their response fails on `GET /`: its handler emits a log
record (`logger.info("Root endpoint accessed")`), so the world after the
call differs from the world before it. -/
theorem root_handler_logs_counterexample :
    (rootEndpoint ⟨"Todo API", "1.0.0", false, false, ["http://localhost:3000"]⟩
        ⟨2025, 1, 1, 0, 0, 0, 0⟩ ⟨.fresh, []⟩).2 ≠ (⟨.fresh, []⟩ : AppWorld) := by
  decide

/-- C8 (amended): the handlers mutate neither the database state nor any
application state other than the log — `GET /` appends exactly one log
record and `GET /health` has no effect at all — and each response depends
only on the settings and the clock, not on the world. -/
theorem handlers_frame_effects (s : Settings) (now : PyDateTime) (w w' : AppWorld) :
    (rootEndpoint s now w).2.db = w.db ∧
    (rootEndpoint s now w).2.log = w.log ++ ["Root endpoint accessed"] ∧
    (healthEndpoint now w).2 = w ∧
    (rootEndpoint s now w).1 = (rootEndpoint s now w').1 ∧
    (healthEndpoint now w).1 = (healthEndpoint now w').1 :=
  ⟨rfl, rfl, rfl, rfl, rfl⟩

/-- C10: the middleware's origin list is a snapshot of the settings at
application construction (`s0`), while `GET /` re-reads the settings
current at request time (`s1`); when the configured list has changed in
between, the list the middleware enforces and the list the root endpoint
reports disagree. -/
theorem cors_snapshot_vs_live_report (s0 s1 : Settings) (importR : ImportResult)
    (a : TodoApp) (now : PyDateTime)
    (h : buildApp s0 importR = .ok a) :
    a.corsConfig.allow_origins = s0.get_cors_origins_list ∧
    lookupField (root s1 now) "cors_origins" = some (.strList s1.get_cors_origins_list) ∧
    (s0.get_cors_origins_list ≠ s1.get_cors_origins_list →
      a.corsConfig.allow_origins ≠ s1.get_cors_origins_list) := by
  cases importR with
  | ok =>
      simp only [buildApp, registerRouters, Except.ok.injEq] at h
      subst h
      exact ⟨rfl, rfl, fun hne => hne⟩
  | exn e => simp [buildApp, registerRouters] at h

/-- Witness for C10: two configurations whose origin lists differ. -/
theorem cors_snapshot_vs_live_report_witness :
    buildApp ⟨"Todo API", "1.0.0", false, false, ["http://localhost:3000"]⟩ .ok =
      .ok ⟨"Todo API", "1.0.0",
           ⟨["http://localhost:3000"], true, ["*"], ["*"]⟩,
           [⟨.auth, "/api/auth", ["Authentication"]⟩,
            ⟨.tasks, "/api/tasks", ["Tasks"]⟩]⟩ ∧
    (⟨"Todo API", "1.0.0",
      ⟨["http://localhost:3000"], true, ["*"], ["*"]⟩,
      [⟨.auth, "/api/auth", ["Authentication"]⟩,
       ⟨.tasks, "/api/tasks", ["Tasks"]⟩]⟩ : TodoApp).corsConfig.allow_origins ≠
      (⟨"Todo API", "1.0.0", false, false,
        ["http://localhost:3000", "https://example.com"]⟩ : Settings).get_cors_origins_list := by
  refine ⟨rfl, ?_⟩
  have h := cors_snapshot_vs_live_report
    ⟨"Todo API", "1.0.0", false, false, ["http://localhost:3000"]⟩
    ⟨"Todo API", "1.0.0", false, false, ["http://localhost:3000", "https://example.com"]⟩
    .ok
    ⟨"Todo API", "1.0.0",
     ⟨["http://localhost:3000"], true, ["*"], ["*"]⟩,
     [⟨.auth, "/api/auth", ["Authentication"]⟩,
      ⟨.tasks, "/api/tasks", ["Tasks"]⟩]⟩
    ⟨2025, 1, 1, 0, 0, 0, 0⟩ rfl
  exact h.2.2 (by decide)

end TodoApi
